import Mathlib

/-!
Shallow embedding of `src/backend/routers/announcements.py`: a FastAPI router
offering list / create / update / delete over an announcements collection,
with a teacher-existence check gating the write operations.

Modelling choices:
* A stored document is a record with a string `_id` plus the five fields the
  router ever writes (`title`, `message`, `start_date`, `expiration_date`,
  `created_by`), each an `Option String` (`none` = absent or JSON null,
  which `doc.get` and truthiness treat alike).
* The announcements collection is a list of documents plus a counter from
  which `insert_one` assigns fresh identifiers (the store-assigned id).
* `datetime.fromisoformat` and the comparison with `now` are abstracted as a
  function `parse : String → Option Int`: `some t` when the string parses to
  a timestamp comparable with `now`, `none` when parsing (or the aware/naive
  comparison) raises.  The `exp.replace("Z", "+00:00")` preprocessing is kept
  explicit.  Timestamps are integers ordered as the datetimes are.
* `raise HTTPException` is modelled with `Except`; every endpoint returns its
  result together with the post-state of the announcements collection, so
  that "the store is unchanged" is a provable statement, not a convention.
-/

/-- `fastapi.HTTPException`: a status code and a human-readable detail. -/
structure HTTPException where
  status_code : Nat
  detail : String
deriving DecidableEq, Repr

/-- A teacher document; the router only ever consults its `_id` (username). -/
structure Teacher where
  _id : String
deriving DecidableEq, Repr

/-- The five announcement fields the router reads or writes, `_id` excluded.
`none` models both an absent key and a stored JSON null. -/
structure AnnouncementFields where
  title : Option String
  message : Option String
  start_date : Option String
  expiration_date : Option String
  created_by : Option String
deriving DecidableEq, Repr

/-- A stored announcement document: store-assigned `_id` plus fields. -/
structure Doc where
  _id : String
  fields : AnnouncementFields
deriving DecidableEq, Repr

/-- The announcements collection: stored documents plus the counter from
which `insert_one` assigns the next identifier. -/
structure Store where
  docs : List Doc
  nextId : Nat
deriving DecidableEq, Repr

/-- The body of the `list_announcements` loop for one document: `True` when
the document is kept.  Mirrors `exp = doc.get("expiration_date"); if exp:`
(`None` and `""` are falsy, so no parse is attempted), then
`datetime.fromisoformat(exp.replace("Z", "+00:00"))` inside `try`, keeping
the document unless `exp_dt < now`; any exception falls through to `pass`
(the document is kept). -/
def keepAnnouncement (parse : String → Option Int) (now : Int) (doc : Doc) : Bool :=
  match doc.fields.expiration_date with
  | none => true
  | some exp =>
    if exp = "" then true
    else
      match parse (exp.replace "Z" "+00:00") with
      | none => true
      | some exp_dt => if exp_dt < now then false else true

/-- `list_announcements`: keep the non-expired documents and shape each as
`str(doc["_id"]) ↦ {k: v for k, v in doc.items() if k != "_id"}`. -/
def list_announcements (parse : String → Option Int) (now : Int)
    (docs : List Doc) : List (String × AnnouncementFields) :=
  (docs.filter (keepAnnouncement parse now)).map (fun d => (d._id, d.fields))

/-- `teachers_collection.find_one({"_id": username})`. -/
def teachers_find_one (teachers : List Teacher) (username : String) : Option Teacher :=
  teachers.find? (fun t => t._id = username)

/-- `_require_teacher`: 401 "Authentication required" when the username is
`None` or empty (falsy), 401 "Invalid teacher credentials" when no teacher
document has that `_id`, otherwise the teacher document. -/
def _require_teacher (teachers : List Teacher) (username : Option String) :
    Except HTTPException Teacher :=
  match username with
  | none => .error ⟨401, "Authentication required"⟩
  | some u =>
    if u = "" then .error ⟨401, "Authentication required"⟩
    else
      match teachers_find_one teachers u with
      | none => .error ⟨401, "Invalid teacher credentials"⟩
      | some teacher => .ok teacher

/-- `announcements_collection.insert_one`: appends the document under a fresh
store-assigned identifier and returns `inserted_id` with the new store. -/
def insert_one (store : Store) (fields : AnnouncementFields) : String × Store :=
  let newId := toString store.nextId
  (newId, ⟨store.docs ++ [⟨newId, fields⟩], store.nextId + 1⟩)

/-- `{"id": str(result.inserted_id), **announcement}`. -/
structure CreateResponse where
  id : String
  fields : AnnouncementFields
deriving DecidableEq, Repr

/-- `create_announcement`: teacher check on `created_by`, then insert the
document and echo it back with the new identifier. -/
def create_announcement (teachers : List Teacher) (store : Store)
    (title message expiration_date : String)
    (start_date created_by : Option String) :
    Except HTTPException CreateResponse × Store :=
  match _require_teacher teachers created_by with
  | .error e => (.error e, store)
  | .ok _ =>
    let announcement : AnnouncementFields :=
      ⟨some title, some message, start_date, some expiration_date, created_by⟩
    let result := insert_one store announcement
    (.ok ⟨result.1, announcement⟩, result.2)

/-- The partial `update` dict built from the supplied parameters: each key is
added exactly when its parameter `is not None`. -/
def buildUpdate (title message expiration_date start_date : Option String) :
    List (String × Option String) :=
  (if title.isSome then [("title", title)] else []) ++
  (if message.isSome then [("message", message)] else []) ++
  (if expiration_date.isSome then [("expiration_date", expiration_date)] else []) ++
  (if start_date.isSome then [("start_date", start_date)] else [])

/-- `$set` of a single key/value pair on a document's fields; keys the router
never produces are left as-is. -/
def setKey (fields : AnnouncementFields) (kv : String × Option String) :
    AnnouncementFields :=
  match kv.1 with
  | "title" => { fields with title := kv.2 }
  | "message" => { fields with message := kv.2 }
  | "expiration_date" => { fields with expiration_date := kv.2 }
  | "start_date" => { fields with start_date := kv.2 }
  | "created_by" => { fields with created_by := kv.2 }
  | _ => fields

/-- `{"$set": update}` applied to a document's fields. -/
def applySet (upd : List (String × Option String)) (fields : AnnouncementFields) :
    AnnouncementFields :=
  upd.foldl setKey fields

/-- `update_one({"_id": id}, {"$set": upd})` on the document list: applies the
partial set to the first document whose `_id` matches and reports
`matched_count`. -/
def updateDocs (id : String) (upd : List (String × Option String)) :
    List Doc → Nat × List Doc
  | [] => (0, [])
  | d :: ds =>
    if d._id = id then (1, ⟨d._id, applySet upd d.fields⟩ :: ds)
    else
      let r := updateDocs id upd ds
      (r.1, d :: r.2)

/-- `announcements_collection.update_one` on the store. -/
def update_one (store : Store) (id : String)
    (upd : List (String × Option String)) : Nat × Store :=
  let r := updateDocs id upd store.docs
  (r.1, ⟨r.2, store.nextId⟩)

/-- `delete_one({"_id": id})` on the document list: removes the first document
whose `_id` matches and reports `deleted_count`. -/
def deleteDocs (id : String) : List Doc → Nat × List Doc
  | [] => (0, [])
  | d :: ds =>
    if d._id = id then (1, ds)
    else
      let r := deleteDocs id ds
      (r.1, d :: r.2)

/-- `announcements_collection.delete_one` on the store. -/
def delete_one (store : Store) (id : String) : Nat × Store :=
  let r := deleteDocs id store.docs
  (r.1, ⟨r.2, store.nextId⟩)

/-- `{"id": announcement_id, **update}`. -/
structure UpdateResponse where
  id : String
  fields : List (String × Option String)
deriving DecidableEq, Repr

/-- `update_announcement`: teacher check on `modified_by`, build the partial
dict, 400 when it is empty, apply it, 404 when nothing matched, else echo the
identifier and the fields actually changed. -/
def update_announcement (teachers : List Teacher) (store : Store)
    (announcement_id : String)
    (title message expiration_date start_date modified_by : Option String) :
    Except HTTPException UpdateResponse × Store :=
  match _require_teacher teachers modified_by with
  | .error e => (.error e, store)
  | .ok _ =>
    let update := buildUpdate title message expiration_date start_date
    if update.isEmpty then (.error ⟨400, "No fields to update"⟩, store)
    else
      let result := update_one store announcement_id update
      if result.1 = 0 then (.error ⟨404, "Announcement not found"⟩, result.2)
      else (.ok ⟨announcement_id, update⟩, result.2)

/-- `{"id": announcement_id, "deleted": True}`. -/
structure DeleteResponse where
  id : String
  deleted : Bool
deriving DecidableEq, Repr

/-- `delete_announcement`: teacher check on `deleted_by`, delete by `_id`,
404 when nothing was deleted, else confirm. -/
def delete_announcement (teachers : List Teacher) (store : Store)
    (announcement_id : String) (deleted_by : Option String) :
    Except HTTPException DeleteResponse × Store :=
  match _require_teacher teachers deleted_by with
  | .error e => (.error e, store)
  | .ok _ =>
    let result := delete_one store announcement_id
    if result.1 = 0 then (.error ⟨404, "Announcement not found"⟩, result.2)
    else (.ok ⟨announcement_id, true⟩, result.2)

/-! ## Helper lemmas -/

/-- Membership in `list_announcements` output, for a stored document, is
exactly the loop's keep condition: the map `d ↦ (d._id, d.fields)` loses no
information, so the shaped entry appears iff the document survives the
filter. -/
lemma mem_list_announcements_iff (parse : String → Option Int) (now : Int)
    (docs : List Doc) (d : Doc) (hmem : d ∈ docs) :
    (d._id, d.fields) ∈ list_announcements parse now docs ↔
      keepAnnouncement parse now d = true := by
  unfold list_announcements
  rw [List.mem_map]
  constructor
  · rintro ⟨d', hd', heq⟩
    rw [List.mem_filter] at hd'
    have hdd : d' = d := by
      cases d'; cases d
      simp_all
    subst hdd
    exact hd'.2
  · intro hk
    exact ⟨d, List.mem_filter.mpr ⟨hmem, hk⟩, rfl⟩

/-! ## C1, C2, C9: list visibility -/

/-- C1: a stored record with no `expiration_date` is always listed, and a
record whose `expiration_date` parses to a timestamp is listed exactly when
that timestamp is not strictly earlier than the current UTC time.  The
hypothesis `hempty` records that the (preprocessed) empty string is not a
valid timestamp (Python's `fromisoformat` raises on it; the router never
parses it anyway because `""` is falsy). -/
theorem list_includes_iff_not_expired (parse : String → Option Int) (now : Int)
    (docs : List Doc) (d : Doc) (hmem : d ∈ docs)
    (hempty : parse ("".replace "Z" "+00:00") = none) :
    (d.fields.expiration_date = none →
      (d._id, d.fields) ∈ list_announcements parse now docs) ∧
    (∀ exp t, d.fields.expiration_date = some exp →
      parse (exp.replace "Z" "+00:00") = some t →
      ((d._id, d.fields) ∈ list_announcements parse now docs ↔ now ≤ t)) := by
  have hiff := mem_list_announcements_iff parse now docs d hmem
  constructor
  · intro hnone
    rw [hiff]
    unfold keepAnnouncement
    rw [hnone]
  · intro exp t hexp hparse
    rw [hiff]
    unfold keepAnnouncement
    rw [hexp]
    show (if exp = "" then true
          else match parse (exp.replace "Z" "+00:00") with
            | none => true
            | some exp_dt => if exp_dt < now then false else true) = true ↔ now ≤ t
    by_cases hemp : exp = ""
    · subst hemp
      rw [hempty] at hparse
      exact absurd hparse (by simp)
    · rw [if_neg hemp, hparse]
      show (if t < now then false else true) = true ↔ now ≤ t
      constructor
      · intro hkeep
        by_contra hlt
        rw [if_pos (by omega)] at hkeep
        exact absurd hkeep (by simp)
      · intro hle
        rw [if_neg (by omega)]

/-- Witness for C1: a record with no expiration date is listed (concrete
parse function, store of one record). -/
theorem list_includes_iff_not_expired_witness :
    (("a1", ⟨some "T", some "M", none, none, none⟩) :
        String × AnnouncementFields) ∈
      list_announcements (fun _ => none) 0
        [⟨"a1", ⟨some "T", some "M", none, none, none⟩⟩] :=
  (list_includes_iff_not_expired (fun _ => none) 0
    [⟨"a1", ⟨some "T", some "M", none, none, none⟩⟩]
    ⟨"a1", ⟨some "T", some "M", none, none, none⟩⟩
    (List.mem_singleton.mpr rfl) rfl).1 rfl

/-- Forces the definitional reduction of the keep condition at a `some`
expiration value; used to discharge membership goals below. -/
lemma keepAnnouncement_some (parse : String → Option Int) (now : Int) (d : Doc)
    (exp : String) (hexp : d.fields.expiration_date = some exp) :
    keepAnnouncement parse now d =
      (if exp = "" then true
       else match parse (exp.replace "Z" "+00:00") with
         | none => true
         | some exp_dt => if exp_dt < now then false else true) := by
  unfold keepAnnouncement
  rw [hexp]

/-- C2: a stored record whose `expiration_date` does not parse is listed
(fail-open); `list_announcements` is total, so no error is raised. -/
theorem list_includes_unparseable (parse : String → Option Int) (now : Int)
    (docs : List Doc) (d : Doc) (exp : String) (hmem : d ∈ docs)
    (hexp : d.fields.expiration_date = some exp)
    (hparse : parse (exp.replace "Z" "+00:00") = none) :
    (d._id, d.fields) ∈ list_announcements parse now docs := by
  rw [mem_list_announcements_iff parse now docs d hmem,
    keepAnnouncement_some parse now d exp hexp]
  by_cases hemp : exp = ""
  · rw [if_pos hemp]
  · rw [if_neg hemp, hparse]

/-- Witness for C2: a record whose expiration string is rejected by the
parse function is still listed. -/
theorem list_includes_unparseable_witness :
    (("a1", ⟨some "T", some "M", none, some "not-a-date", none⟩) :
        String × AnnouncementFields) ∈
      list_announcements (fun _ => none) 0
        [⟨"a1", ⟨some "T", some "M", none, some "not-a-date", none⟩⟩] :=
  list_includes_unparseable (fun _ => none) 0
    [⟨"a1", ⟨some "T", some "M", none, some "not-a-date", none⟩⟩]
    ⟨"a1", ⟨some "T", some "M", none, some "not-a-date", none⟩⟩
    "not-a-date" (List.mem_singleton.mpr rfl) rfl rfl

/-- C9: a stored record whose `expiration_date` is the empty string is
listed, for EVERY parse function and time — the empty string is falsy, so no
parse is even attempted (the result does not depend on `parse`). -/
theorem list_includes_empty_string_expiration (parse : String → Option Int)
    (now : Int) (docs : List Doc) (d : Doc) (hmem : d ∈ docs)
    (hexp : d.fields.expiration_date = some "") :
    (d._id, d.fields) ∈ list_announcements parse now docs := by
  rw [mem_list_announcements_iff parse now docs d hmem,
    keepAnnouncement_some parse now d "" hexp]
  rw [if_pos rfl]

/-- Witness for C9: the parse function here maps every string to a timestamp
far in the past; the empty-string record is listed anyway. -/
theorem list_includes_empty_string_expiration_witness :
    (("a1", ⟨some "T", some "M", none, some "", none⟩) :
        String × AnnouncementFields) ∈
      list_announcements (fun _ => some (-1000000)) 0
        [⟨"a1", ⟨some "T", some "M", none, some "", none⟩⟩] :=
  list_includes_empty_string_expiration (fun _ => some (-1000000)) 0
    [⟨"a1", ⟨some "T", some "M", none, some "", none⟩⟩]
    ⟨"a1", ⟨some "T", some "M", none, some "", none⟩⟩
    (List.mem_singleton.mpr rfl) rfl

/-! ## C3: the shared teacher check -/

/-- Counterexample for C3 as stated: with no username the check fails with
detail "Authentication required" (capital A), not the claimed literal
"authentication required". -/
theorem require_teacher_message_cex :
    _require_teacher [] none = .error ⟨401, "Authentication required"⟩ ∧
    _require_teacher [] none ≠ .error ⟨401, "authentication required"⟩ := by
  refine ⟨rfl, ?_⟩
  intro h
  rw [show _require_teacher [] none =
      Except.error ⟨401, "Authentication required"⟩ from rfl,
    Except.error.injEq, HTTPException.mk.injEq] at h
  exact absurd h.2 (by decide)

/-- Definitional reduction of the check at a present username. -/
lemma require_teacher_some (teachers : List Teacher) (u : String) :
    _require_teacher teachers (some u) =
      if u = "" then Except.error ⟨401, "Authentication required"⟩
      else
        match teachers_find_one teachers u with
        | none => Except.error ⟨401, "Invalid teacher credentials"⟩
        | some teacher => Except.ok teacher := rfl

/-- C3 (amended): the shared check fails with 401 "Authentication required"
when the username is absent or empty, fails with 401 "Invalid teacher
credentials" when no teacher record has that username, and otherwise returns
the teacher record; create (on created_by), update (on modified_by) and
delete (on deleted_by) are gated by it: whenever it fails they return its
error with the store unchanged. -/
theorem require_teacher_spec (teachers : List Teacher) (u : String)
    (hu : u ≠ "") :
    _require_teacher teachers none = .error ⟨401, "Authentication required"⟩ ∧
    _require_teacher teachers (some "") =
      .error ⟨401, "Authentication required"⟩ ∧
    (teachers_find_one teachers u = none →
      _require_teacher teachers (some u) =
        .error ⟨401, "Invalid teacher credentials"⟩) ∧
    (∀ t, teachers_find_one teachers u = some t →
      _require_teacher teachers (some u) = .ok t) ∧
    (∀ store title message expiration_date start_date created_by e,
      _require_teacher teachers created_by = .error e →
      create_announcement teachers store title message expiration_date
        start_date created_by = (.error e, store)) ∧
    (∀ store announcement_id title message expiration_date start_date
        modified_by e,
      _require_teacher teachers modified_by = .error e →
      update_announcement teachers store announcement_id title message
        expiration_date start_date modified_by = (.error e, store)) ∧
    (∀ store announcement_id deleted_by e,
      _require_teacher teachers deleted_by = .error e →
      delete_announcement teachers store announcement_id deleted_by =
        (.error e, store)) := by
  refine ⟨rfl, rfl, ?_, ?_, ?_, ?_, ?_⟩
  · intro hfind
    rw [require_teacher_some, if_neg hu, hfind]
  · intro t hfind
    rw [require_teacher_some, if_neg hu, hfind]
  · intro store title message expiration_date start_date created_by e h
    unfold create_announcement
    rw [h]
  · intro store announcement_id title message expiration_date start_date
      modified_by e h
    unfold update_announcement
    rw [h]
  · intro store announcement_id deleted_by e h
    unfold delete_announcement
    rw [h]

/-- Witness for C3 (amended): a present teacher username passes the check and
the teacher record is returned. -/
theorem require_teacher_spec_witness :
    _require_teacher [⟨"t1"⟩] (some "t1") = .ok ⟨"t1"⟩ :=
  (require_teacher_spec [⟨"t1"⟩] "t1" (by decide)).2.2.2.1 ⟨"t1"⟩ rfl

/-! ## C4: update with no fields -/

/-- Counterexample for C4 as stated: with `modified_by = None` and no fields
supplied, update fails with 401 (the teacher check runs first), not with 400
"regardless of authorization". -/
theorem update_no_fields_unauthorized_cex :
    update_announcement [] ⟨[], 0⟩ "x" none none none none none =
      (.error ⟨401, "Authentication required"⟩, ⟨[], 0⟩) ∧
    (update_announcement [] ⟨[], 0⟩ "x" none none none none none).1 ≠
      .error ⟨400, "No fields to update"⟩ := by
  refine ⟨rfl, ?_⟩
  intro h
  rw [show (update_announcement [] ⟨[], 0⟩ "x" none none none none none).1 =
      Except.error ⟨401, "Authentication required"⟩ from rfl,
    Except.error.injEq, HTTPException.mk.injEq] at h
  exact absurd h.1 (by decide)

/-- C4 (amended): when `modified_by` passes the teacher check and none of
title, message, expiration_date, start_date is supplied, update fails with
400 "No fields to update" and the store is unchanged. -/
theorem update_no_fields_bad_request (teachers : List Teacher) (store : Store)
    (announcement_id : String) (modified_by : Option String) (t : Teacher)
    (hauth : _require_teacher teachers modified_by = .ok t) :
    update_announcement teachers store announcement_id
        none none none none modified_by =
      (.error ⟨400, "No fields to update"⟩, store) := by
  unfold update_announcement
  rw [hauth]
  rfl

/-- Witness for C4 (amended): concrete authorized no-fields update. -/
theorem update_no_fields_bad_request_witness :
    update_announcement [⟨"t1"⟩] ⟨[], 0⟩ "x" none none none none
        (some "t1") =
      (.error ⟨400, "No fields to update"⟩, ⟨[], 0⟩) :=
  update_no_fields_bad_request [⟨"t1"⟩] ⟨[], 0⟩ "x" (some "t1") ⟨"t1"⟩ rfl

/-! ## C8: delete with a missing username -/

/-- C8: delete with `deleted_by = None` fails with 401 "Authentication
required" and returns the store unchanged (no record removed).  The equation
holds for EVERY teachers list and every store, so neither collection is
consulted: the failure happens before any store lookup. -/
theorem delete_missing_username_unauthorized (teachers : List Teacher)
    (store : Store) (announcement_id : String) :
    delete_announcement teachers store announcement_id none =
      (.error ⟨401, "Authentication required"⟩, store) := rfl

/-! ## C5: update/delete on a missing identifier -/

/-- `update_one` matched nothing: when no stored document has the target
`_id`, the document list is returned unchanged with `matched_count = 0`. -/
lemma updateDocs_no_match (id : String) (upd : List (String × Option String))
    (docs : List Doc) (h : ∀ d ∈ docs, d._id ≠ id) :
    updateDocs id upd docs = (0, docs) := by
  induction docs with
  | nil => rfl
  | cons d ds ih =>
    have hd : ¬ d._id = id := h d (List.mem_cons_self d ds)
    have ih' := ih (fun x hx => h x (List.mem_cons_of_mem d hx))
    simp only [updateDocs, if_neg hd, ih']

/-- `delete_one` matched nothing: when no stored document has the target
`_id`, the document list is returned unchanged with `deleted_count = 0`. -/
lemma deleteDocs_no_match (id : String) (docs : List Doc)
    (h : ∀ d ∈ docs, d._id ≠ id) :
    deleteDocs id docs = (0, docs) := by
  induction docs with
  | nil => rfl
  | cons d ds ih =>
    have hd : ¬ d._id = id := h d (List.mem_cons_self d ds)
    have ih' := ih (fun x hx => h x (List.mem_cons_of_mem d hx))
    simp only [deleteDocs, if_neg hd, ih']

/-- C5: an authorized update with at least one field supplied, and an
authorized delete, both fail with 404 when no stored record has the target
identifier, and both leave the announcement store unchanged. -/
theorem update_delete_missing_not_found (teachers : List Teacher)
    (store : Store) (announcement_id : String)
    (title message expiration_date start_date modified_by deleted_by :
      Option String)
    (tu td : Teacher)
    (hu : _require_teacher teachers modified_by = .ok tu)
    (hd : _require_teacher teachers deleted_by = .ok td)
    (hfields : buildUpdate title message expiration_date start_date ≠ [])
    (hmissing : ∀ d ∈ store.docs, d._id ≠ announcement_id) :
    update_announcement teachers store announcement_id title message
        expiration_date start_date modified_by =
      (.error ⟨404, "Announcement not found"⟩, store) ∧
    delete_announcement teachers store announcement_id deleted_by =
      (.error ⟨404, "Announcement not found"⟩, store) := by
  have hemp : (buildUpdate title message expiration_date start_date).isEmpty
      = false := by
    cases hbu : buildUpdate title message expiration_date start_date with
    | nil => exact absurd hbu hfields
    | cons a as => rfl
  obtain ⟨docs, nextId⟩ := store
  constructor
  · simp [update_announcement, hu, hemp, update_one,
      updateDocs_no_match announcement_id _ docs hmissing]
  · simp [delete_announcement, hd, delete_one,
      deleteDocs_no_match announcement_id docs hmissing]

/-- Witness for C5: authorized update (with a title) and delete against an
empty store both report 404 on identifier "x". -/
theorem update_delete_missing_not_found_witness :
    update_announcement [⟨"t1"⟩] ⟨[], 0⟩ "x" (some "New") none none none
        (some "t1") =
      (.error ⟨404, "Announcement not found"⟩, ⟨[], 0⟩) ∧
    delete_announcement [⟨"t1"⟩] ⟨[], 0⟩ "x" (some "t1") =
      (.error ⟨404, "Announcement not found"⟩, ⟨[], 0⟩) :=
  update_delete_missing_not_found [⟨"t1"⟩] ⟨[], 0⟩ "x" (some "New") none
    none none (some "t1") (some "t1") ⟨"t1"⟩ ⟨"t1"⟩ rfl rfl
    (by decide) (by intro d hd; exact absurd hd (by simp))

/-! ## C7: create echoes the submitted fields -/

/-- C7: an authorized create returns the store-assigned identifier of the
newly inserted record together with an exact echo of the submitted title,
message, start_date, expiration_date and created_by; the record inserted
into the store carries that same identifier and those same fields. -/
theorem create_returns_id_and_echo (teachers : List Teacher) (store : Store)
    (title message expiration_date : String)
    (start_date created_by : Option String) (t : Teacher)
    (hauth : _require_teacher teachers created_by = .ok t) :
    create_announcement teachers store title message expiration_date
        start_date created_by =
      (.ok ⟨toString store.nextId,
            ⟨some title, some message, start_date, some expiration_date,
             created_by⟩⟩,
       ⟨store.docs ++
          [⟨toString store.nextId,
            ⟨some title, some message, start_date, some expiration_date,
             created_by⟩⟩],
        store.nextId + 1⟩) := by
  unfold create_announcement
  rw [hauth]
  rfl

/-- Witness for C7: concrete authorized create against an empty store. -/
theorem create_returns_id_and_echo_witness :
    create_announcement [⟨"t1"⟩] ⟨[], 0⟩ "Exam" "Midterm Friday"
        "2099-01-01T00:00:00Z" none (some "t1") =
      (.ok ⟨"0", ⟨some "Exam", some "Midterm Friday", none,
            some "2099-01-01T00:00:00Z", some "t1"⟩⟩,
       ⟨[⟨"0", ⟨some "Exam", some "Midterm Friday", none,
            some "2099-01-01T00:00:00Z", some "t1"⟩⟩], 1⟩) :=
  create_returns_id_and_echo [⟨"t1"⟩] ⟨[], 0⟩ "Exam" "Midterm Friday"
    "2099-01-01T00:00:00Z" none (some "t1") ⟨"t1"⟩ rfl

/-! ## C6: update touches only the supplied fields of the matched record -/

/-- The value a field ends with after a partial update: the supplied value
when the parameter was supplied, the previous value otherwise. -/
def overrideField (supplied old : Option String) : Option String :=
  match supplied with
  | some v => some v
  | none => old

/-- Applying the partial dict built by update: each of the four optional
parameters overrides its field exactly when supplied; `created_by` is never
touched. -/
lemma applySet_buildUpdate (title message expiration_date start_date :
      Option String) (f : AnnouncementFields) :
    applySet (buildUpdate title message expiration_date start_date) f =
      ⟨overrideField title f.title,
       overrideField message f.message,
       overrideField start_date f.start_date,
       overrideField expiration_date f.expiration_date,
       f.created_by⟩ := by
  cases title <;> cases message <;> cases expiration_date <;>
    cases start_date <;> rfl

/-- When `update_one` matched (count ≠ 0), the document list splits around
the first document with the target `_id`, and only that document is
rewritten, to `applySet upd` of its fields. -/
lemma updateDocs_found (id : String) (upd : List (String × Option String))
    (docs : List Doc) (h : (updateDocs id upd docs).1 ≠ 0) :
    ∃ pre d post,
      docs = pre ++ d :: post ∧ d._id = id ∧
      (updateDocs id upd docs).2 =
        pre ++ (⟨d._id, applySet upd d.fields⟩ : Doc) :: post := by
  induction docs with
  | nil => exact absurd rfl h
  | cons d ds ih =>
    by_cases hd : d._id = id
    · refine ⟨[], d, ds, rfl, hd, ?_⟩
      simp [updateDocs, if_pos hd]
    · have h' : (updateDocs id upd ds).1 ≠ 0 := by
        simpa [updateDocs, if_neg hd] using h
      obtain ⟨pre, d', post, h1, h2, h3⟩ := ih h'
      exact ⟨d :: pre, d', post, by rw [h1]; rfl, h2,
        by simp [updateDocs, if_neg hd, h3]⟩

/-- Inversion of a successful update: the auth check passed, something
matched, and the post-store is `update_one`'s rewrite with the counter kept. -/
lemma update_announcement_ok (teachers : List Teacher) (store : Store)
    (announcement_id : String)
    (title message expiration_date start_date modified_by : Option String)
    (resp : UpdateResponse) (store' : Store)
    (h : update_announcement teachers store announcement_id title message
          expiration_date start_date modified_by = (.ok resp, store')) :
    (updateDocs announcement_id
        (buildUpdate title message expiration_date start_date) store.docs).1
      ≠ 0 ∧
    store' =
      ⟨(updateDocs announcement_id
          (buildUpdate title message expiration_date start_date)
          store.docs).2,
       store.nextId⟩ := by
  unfold update_announcement at h
  cases hauth : _require_teacher teachers modified_by with
  | error e =>
    rw [hauth] at h
    exact absurd h (by simp)
  | ok t =>
    rw [hauth] at h
    by_cases hemp : (buildUpdate title message expiration_date
        start_date).isEmpty
    · exact absurd h (by simp [hemp])
    · rw [Bool.not_eq_true] at hemp
      by_cases hz : (updateDocs announcement_id
          (buildUpdate title message expiration_date start_date)
          store.docs).1 = 0
      · exact absurd h (by simp [hemp, update_one, hz])
      · refine ⟨hz, ?_⟩
        have h2 := congrArg Prod.snd h
        simpa [hemp, update_one, hz] using h2.symm

/-- C6: a successful update changes exactly the supplied fields of the
matched record — each supplied field takes the supplied value, each absent
field (and `created_by`, and the identifier) keeps its previous value — and
every other stored record, and the id counter, are unchanged. -/
theorem update_modifies_only_supplied_fields (teachers : List Teacher)
    (store : Store) (announcement_id : String)
    (title message expiration_date start_date modified_by : Option String)
    (resp : UpdateResponse) (store' : Store)
    (h : update_announcement teachers store announcement_id title message
          expiration_date start_date modified_by = (.ok resp, store')) :
    store'.nextId = store.nextId ∧
    ∃ pre d post d',
      store.docs = pre ++ d :: post ∧
      store'.docs = pre ++ d' :: post ∧
      d._id = announcement_id ∧
      d'._id = d._id ∧
      d'.fields.title = overrideField title d.fields.title ∧
      d'.fields.message = overrideField message d.fields.message ∧
      d'.fields.expiration_date =
        overrideField expiration_date d.fields.expiration_date ∧
      d'.fields.start_date = overrideField start_date d.fields.start_date ∧
      d'.fields.created_by = d.fields.created_by := by
  obtain ⟨hz, hstore⟩ := update_announcement_ok teachers store announcement_id
    title message expiration_date start_date modified_by resp store' h
  obtain ⟨pre, d, post, h1, h2, h3⟩ := updateDocs_found announcement_id
    (buildUpdate title message expiration_date start_date) store.docs hz
  subst hstore
  refine ⟨rfl, pre, d,
    post, ⟨d._id, applySet (buildUpdate title message expiration_date
      start_date) d.fields⟩, h1, h3, h2, rfl, ?_, ?_, ?_, ?_, ?_⟩ <;>
    rw [applySet_buildUpdate]

/-- Witness for C6: the id counter survives a concrete successful update
(one-record store, title replaced). -/
theorem update_modifies_only_supplied_fields_witness :
    (⟨[⟨"1", ⟨some "New", some "Msg", none, some "2099-01-01", some "t1"⟩⟩],
        5⟩ : Store).nextId =
      (⟨[⟨"1", ⟨some "Old", some "Msg", none, some "2099-01-01", some "t1"⟩⟩],
        5⟩ : Store).nextId :=
  (update_modifies_only_supplied_fields [⟨"t1"⟩]
    ⟨[⟨"1", ⟨some "Old", some "Msg", none, some "2099-01-01", some "t1"⟩⟩], 5⟩
    "1" (some "New") none none none (some "t1")
    ⟨"1", [("title", some "New")]⟩
    ⟨[⟨"1", ⟨some "New", some "Msg", none, some "2099-01-01", some "t1"⟩⟩], 5⟩
    rfl).1

/-! ## C10: update never writes a null -/

/-- C10: every value in the partial dict built by update is non-null, and
consequently applying it can only keep or overwrite a field with a string:
the updated record's field is set exactly when the parameter was supplied or
the field was already set, so no field is ever cleared to null (and
`created_by` is untouched). -/
theorem update_fieldset_never_null
    (title message expiration_date start_date : Option String)
    (f : AnnouncementFields) :
    (∀ kv ∈ buildUpdate title message expiration_date start_date,
      kv.2 ≠ none) ∧
    (applySet (buildUpdate title message expiration_date start_date)
        f).title.isSome = (title.isSome || f.title.isSome) ∧
    (applySet (buildUpdate title message expiration_date start_date)
        f).message.isSome = (message.isSome || f.message.isSome) ∧
    (applySet (buildUpdate title message expiration_date start_date)
        f).expiration_date.isSome
      = (expiration_date.isSome || f.expiration_date.isSome) ∧
    (applySet (buildUpdate title message expiration_date start_date)
        f).start_date.isSome = (start_date.isSome || f.start_date.isSome) ∧
    (applySet (buildUpdate title message expiration_date start_date)
        f).created_by = f.created_by := by
  rw [applySet_buildUpdate]
  refine ⟨?_, ?_, ?_, ?_, ?_, rfl⟩ <;>
    cases title <;> cases message <;> cases expiration_date <;>
      cases start_date <;> simp [buildUpdate, overrideField]

/-- Witness for C10: a supplied title leaves the field set on a concrete
record. -/
theorem update_fieldset_never_null_witness :
    (applySet (buildUpdate (some "New") none none none)
        ⟨some "Old", some "M", none, some "E", some "c"⟩).title.isSome
      = ((some "New" : Option String).isSome ||
         (some "Old" : Option String).isSome) :=
  (update_fieldset_never_null (some "New") none none none
    ⟨some "Old", some "M", none, some "E", some "c"⟩).2.1
